import Mathlib

/-!
Verification of the database connection supervisor in server.js
(repository Tender-Tracker-43).

The server keeps three module-level variables (lines 19-23):
dbClient (the pg client handle, here a handle id), isConnected, and
connectionRetries, with constants MAX_RETRIES = 5 and RETRY_DELAY = 5000.
connectDB (lines 41-85) attempts to connect, resetting the retry counter on
success and recursing after a fixed delay on failure while the counter is
below MAX_RETRIES.  The query endpoint (lines 128-180), the health endpoint
(lines 88-125) and the shutdown handler (lines 191-202) are embedded as pure
transition functions on this state, taking the outcome of each external
effect (connect attempt, query execution, liveness probe, close) as an
oracle argument.
-/

/-- Supervisor state: the module-level variables dbClient, isConnected and
connectionRetries of server.js (lines 19-21).  Client handles are modelled
as natural-number ids (the index of the connect attempt that created them). -/
structure DBState where
  dbClient : Option Nat
  isConnected : Bool
  connectionRetries : Nat
deriving Repr, DecidableEq

/-- MAX_RETRIES constant, server.js line 22. -/
def MAX_RETRIES : Nat := 5

/-- RETRY_DELAY constant in milliseconds, server.js line 23. -/
def RETRY_DELAY : Nat := 5000

/-- Initial state of the module variables (lines 19-21): no client handle,
not connected, zero retries. -/
def initState : DBState := { dbClient := none, isConnected := false, connectionRetries := 0 }

/-- Observable events of a connectDB run: a physical connect attempt
(identified by its index) or a setTimeout delay in milliseconds. -/
inductive Event where
  | attempt (idx : Nat)
  | delay (ms : Nat)
deriving Repr, DecidableEq

/-- Effect of one failed connect attempt on the supervisor state, read off
the catch block of connectDB (lines 72-76): set isConnected false, null the
handle, and increment connectionRetries when it is still below MAX_RETRIES. -/
def failStep (s : DBState) : DBState :=
  if s.connectionRetries < MAX_RETRIES then
    { dbClient := none, isConnected := false, connectionRetries := s.connectionRetries + 1 }
  else
    { dbClient := none, isConnected := false, connectionRetries := s.connectionRetries }

/-- connectDB (server.js lines 41-85).  oracle idx tells whether the idx-th
physical connect attempt succeeds.  Returns the boolean result of the call,
the supervisor state when the call resolves, and the trace of attempts and
delays it produced.  On success the new handle is the id of the successful
attempt and connectionRetries is reset to 0 (lines 58-63); on failure the
state is cleared and, while connectionRetries < MAX_RETRIES, the counter is
incremented, a RETRY_DELAY wait is performed and the function recurses into
itself (lines 72-79); once the counter is no longer below MAX_RETRIES it
returns false with no further attempt (lines 80-83). -/
def connectDB (oracle : Nat → Bool) (idx : Nat) (s : DBState) : Bool × DBState × List Event :=
  if s.isConnected then (true, s, [])
  else if oracle idx then
    (true, { dbClient := some idx, isConnected := true, connectionRetries := 0 },
      [Event.attempt idx])
  else if h : s.connectionRetries < MAX_RETRIES then
    let r := connectDB oracle (idx + 1)
      { dbClient := none, isConnected := false, connectionRetries := s.connectionRetries + 1 }
    (r.1, r.2.1, Event.attempt idx :: Event.delay RETRY_DELAY :: r.2.2)
  else
    (false, { dbClient := none, isConnected := false, connectionRetries := s.connectionRetries },
      [Event.attempt idx])
termination_by MAX_RETRIES - s.connectionRetries
decreasing_by omega

/-- Unfolding lemma: a failed attempt below the retry limit transitions the
state by failStep, emits the attempt and a RETRY_DELAY wait, and recurses. -/
theorem connectDB_fail_lt (oracle : Nat → Bool) (idx : Nat) (s : DBState)
    (hs : s.isConnected = false) (ho : oracle idx = false)
    (hr : s.connectionRetries < MAX_RETRIES) :
    connectDB oracle idx s =
      ((connectDB oracle (idx + 1) (failStep s)).1,
       (connectDB oracle (idx + 1) (failStep s)).2.1,
       Event.attempt idx :: Event.delay RETRY_DELAY ::
         (connectDB oracle (idx + 1) (failStep s)).2.2) := by
  rw [connectDB]
  simp [hs, ho, hr, failStep]

/-- Unfolding lemma: a failed attempt at the retry limit returns false at
once, with the state cleared and no delay or further attempt. -/
theorem connectDB_fail_max (oracle : Nat → Bool) (idx : Nat) (s : DBState)
    (hs : s.isConnected = false) (ho : oracle idx = false)
    (hr : ¬ s.connectionRetries < MAX_RETRIES) :
    connectDB oracle idx s =
      (false, { dbClient := none, isConnected := false, connectionRetries := s.connectionRetries },
       [Event.attempt idx]) := by
  rw [connectDB]
  simp [hs, ho, hr]

/-- Unfolding lemma: a successful attempt installs the fresh handle, sets
Connected and resets the retry counter to 0, whatever its prior value. -/
theorem connectDB_success (oracle : Nat → Bool) (idx : Nat) (s : DBState)
    (hs : s.isConnected = false) (ho : oracle idx = true) :
    connectDB oracle idx s =
      (true, { dbClient := some idx, isConnected := true, connectionRetries := 0 },
       [Event.attempt idx]) := by
  rw [connectDB]
  simp [hs, ho]

/-- Outcome lemma for connectDB, by induction on the remaining retry budget:
starting from a not-connected state, a true result means the final state is
exactly some handle j with Connected and a zero counter, where j is a
successful attempt and the last event of the trace; a false result means the
final state has a null handle and is Disconnected. -/
theorem connectDB_outcome (n : Nat) :
    ∀ (oracle : Nat → Bool) (idx : Nat) (s : DBState),
      MAX_RETRIES - s.connectionRetries = n → s.isConnected = false →
      (((connectDB oracle idx s).1 = true →
        ∃ j, (connectDB oracle idx s).2.1 =
            { dbClient := some j, isConnected := true, connectionRetries := 0 } ∧
          oracle j = true ∧
          ((connectDB oracle idx s).2.2).getLast? = some (Event.attempt j)) ∧
      ((connectDB oracle idx s).1 = false →
        (connectDB oracle idx s).2.1.dbClient = none ∧
        (connectDB oracle idx s).2.1.isConnected = false)) := by
  induction n using Nat.strong_induction_on with
  | _ n ih =>
    intro oracle idx s hn hs
    by_cases ho : oracle idx = true
    · rw [connectDB_success oracle idx s hs ho]
      exact ⟨fun _ => ⟨idx, rfl, ho, rfl⟩, fun h => by simp at h⟩
    · rw [Bool.not_eq_true] at ho
      by_cases hr : s.connectionRetries < MAX_RETRIES
      · rw [connectDB_fail_lt oracle idx s hs ho hr]
        have hstep : (failStep s).connectionRetries = s.connectionRetries + 1 := by
          simp [failStep, hr]
        have ihr := ih (MAX_RETRIES - (s.connectionRetries + 1)) (by omega)
          oracle (idx + 1) (failStep s) (by rw [hstep]) (by simp [failStep, hr])
        refine ⟨fun h => ?_, fun h => ?_⟩
        · obtain ⟨j, hj1, hj2, hj3⟩ := ihr.1 h
          refine ⟨j, hj1, hj2, ?_⟩
          have hne : (connectDB oracle (idx + 1) (failStep s)).2.2 ≠ [] := by
            intro hnil
            rw [hnil] at hj3
            simp at hj3
          obtain ⟨a, l, hl⟩ := List.exists_cons_of_ne_nil hne
          rw [hl] at hj3 ⊢
          simpa using hj3
        · exact ihr.2 h
      · rw [connectDB_fail_max oracle idx s hs ho hr]
        exact ⟨fun h => by simp at h, fun _ => ⟨rfl, rfl⟩⟩

/-- Body of a POST /api/query request: req.body.text (none models a missing
field) and req.body.params (line 137). -/
structure QueryRequest where
  text : Option String
  params : List String
deriving Repr, DecidableEq

/-- Outcome of the dbClient.query call at line 149: a result object with
rows, rowCount and fields (name, dataTypeID), or a thrown error with code,
message and stack. -/
inductive QueryOutcome where
  | ok (rows : List String) (rowCount : Nat) (fields : List (String × Nat))
  | err (code : String) (message : String) (stack : String)
deriving Repr, DecidableEq

/-- JSON response of the query endpoint, as a record of the fields the four
response shapes of lines 130-178 may carry. -/
structure QueryResponse where
  status : Nat
  error : Bool
  message : Option String
  code : Option String
  detail : Option String
  rows : Option (List String)
  rowCount : Option Nat
  fields : Option (List (String × Nat))
deriving Repr, DecidableEq

/-- JavaScript truthiness test of line 139: req.body.text is falsy when the
field is missing or the empty string. -/
def isFalsy : Option String → Bool
  | none => true
  | some t => t == ""

/-- Connection-fatal error classification of line 168: code ECONNRESET
(connection reset) or 57P01 (admin shutdown). -/
def fatalCode (c : String) : Bool := c == "ECONNRESET" || c == "57P01"

/-- Query endpoint handler (server.js lines 128-180) as a transition
function.  Inputs: NODE_ENV, the supervisor state at arrival, the request
body, and the outcome the database would give the query.  Output: the
response, the supervisor state when the response is sent, the number of
connectDB calls scheduled without being awaited (line 170), and the number
of dbClient.query calls made.  When not connected it answers 503 at once
(lines 129-134); a falsy text answers 400 (lines 139-144); a successful
execution answers 200 with rows, rowCount and mapped fields (lines 149-159);
a thrown error answers 500 with message, code and, in development, the
stack (lines 173-178), after setting isConnected false and scheduling a
reconnect when the code is connection-fatal (lines 168-171) — the handle is
not cleared on that path. -/
def queryHandler (nodeEnv : String) (s : DBState) (req : QueryRequest)
    (exec : QueryOutcome) : QueryResponse × DBState × Nat × Nat :=
  if s.isConnected = false then
    ({ status := 503, error := true, message := some "Database not connected",
       code := none, detail := none, rows := none, rowCount := none, fields := none },
     s, 0, 0)
  else if isFalsy req.text then
    ({ status := 400, error := true, message := some "Query text is required",
       code := none, detail := none, rows := none, rowCount := none, fields := none },
     s, 0, 0)
  else
    match exec with
    | QueryOutcome.ok rows rowCount fields =>
        ({ status := 200, error := false, message := none, code := none, detail := none,
           rows := some rows, rowCount := some rowCount, fields := some fields },
         s, 0, 1)
    | QueryOutcome.err code msg stack =>
        (({ status := 500, error := true, message := some msg, code := some code,
            detail := if nodeEnv == "development" then some stack else none,
            rows := none, rowCount := none, fields := none } : QueryResponse),
         (if fatalCode code then { s with isConnected := false } else s),
         (if fatalCode code then 1 else 0), 1)

/-- Health document built at lines 88-99 (the environment object is reduced
to its nodeEnv field; the dbHost and dbName strings carry nothing the claims
touch). -/
structure HealthDoc where
  status : String
  uptime : Nat
  timestamp : String
  database : String
  databaseError : Option String
  nodeEnv : Option String
deriving Repr, DecidableEq

/-- Body of a health response: the normal document, or the fallback object
of the catch block (lines 119-123) with status degraded. -/
inductive HealthBody where
  | report (doc : HealthDoc)
  | degraded (errorMessage : String) (timestamp : String)
deriving Repr, DecidableEq

/-- Outcome of the SELECT 1 liveness probe at line 103. -/
inductive ProbeOutcome where
  | ok
  | fail (message : String)
deriving Repr, DecidableEq

/-- Modelled from the spec: the route registration of the health endpoint —
the line app.get(/api/health, async handler) opening its try block — is
truncated from server.js (the fragment after the comment at line 87 starts
mid-handler), so the wrapper is reconstructed from the spec sentence that an
unrecoverable internal error in the reporter yields the degraded fallback;
everything else embeds lines 88-124 of server.js.  Inputs: uptime and
timestamp observed, NODE_ENV, the supervisor state, the outcome a liveness
probe would give, and (some message) when the reporter body itself throws.
Output: (HTTP status, body), the supervisor state when the response is sent,
the list of probe queries issued, and the number of connectDB calls
scheduled without being awaited (line 111).  The document starts with
status healthy and database reflecting isConnected (lines 89-92); when
connected, one SELECT 1 probe runs, a failure rewrites database to error,
records the message and schedules a reconnect (lines 101-113); every path
answers with HTTP status 200 (lines 116 and 119). -/
def healthHandler (uptime : Nat) (ts : String) (nodeEnv : Option String)
    (s : DBState) (probe : ProbeOutcome) (reporterError : Option String) :
    (Nat × HealthBody) × DBState × List String × Nat :=
  match reporterError with
  | some e => ((200, HealthBody.degraded e ts), s, [], 0)
  | none =>
    let doc0 : HealthDoc :=
      { status := "healthy", uptime := uptime, timestamp := ts,
        database := if s.isConnected then "connected" else "disconnected",
        databaseError := none, nodeEnv := nodeEnv }
    if s.isConnected then
      match probe with
      | ProbeOutcome.ok =>
          ((200, HealthBody.report { doc0 with database := "connected" }), s, ["SELECT 1"], 0)
      | ProbeOutcome.fail m =>
          ((200, HealthBody.report { doc0 with database := "error", databaseError := some m }),
           s, ["SELECT 1"], 1)
    else
      ((200, HealthBody.report doc0), s, [], 0)

/-- Outcome of the dbClient.end call at line 195. -/
inductive CloseOutcome where
  | ok
  | fail (message : String)
deriving Repr, DecidableEq

/-- Shutdown handler (server.js lines 191-202): when a client handle is
present, dbClient.end() is awaited inside a try/catch whose catch only
logs; then process.exit(0) runs unconditionally.  Output: the process exit
code, the supervisor state at exit (none of the three module variables is
written), and the number of end() calls made.  The close outcome is taken
as input and ignored, as the catch block does. -/
def shutdown (s : DBState) (close : CloseOutcome) : Nat × DBState × Nat :=
  match s.dbClient with
  | some _ =>
      match close with
      | CloseOutcome.ok => (0, s, 1)
      | CloseOutcome.fail _ => (0, s, 1)
  | none => (0, s, 0)

/-- Claim C1: bounded retry policy of connectDB.  First, from the initial
state, after the N-th consecutive failure (N up to MAX_RETRIES) the retry
counter equals N and the state is Disconnected.  Second, each failure below
the limit drives the retry by recursing into connectDB itself on the
failStep-updated state, with the fixed RETRY_DELAY wait emitted before the
events of the retry.  Third, once the counter has reached MAX_RETRIES a
failing call returns false with a single attempt and no further automatic
retry.  Fourth, the complete all-failures run from the initial state makes
MAX_RETRIES + 1 attempts separated by 5000 ms delays and returns false. -/
theorem connectDB_bounded_retry :
    (∀ N, N ≤ MAX_RETRIES →
      (failStep^[N] initState).connectionRetries = N ∧
      (failStep^[N] initState).isConnected = false) ∧
    (∀ (oracle : Nat → Bool) (idx : Nat) (s : DBState),
      s.isConnected = false → oracle idx = false → s.connectionRetries < MAX_RETRIES →
      connectDB oracle idx s =
        ((connectDB oracle (idx + 1) (failStep s)).1,
         (connectDB oracle (idx + 1) (failStep s)).2.1,
         Event.attempt idx :: Event.delay RETRY_DELAY ::
           (connectDB oracle (idx + 1) (failStep s)).2.2)) ∧
    (∀ (oracle : Nat → Bool) (idx : Nat) (s : DBState),
      s.isConnected = false → oracle idx = false → s.connectionRetries = MAX_RETRIES →
      connectDB oracle idx s =
        (false, { dbClient := none, isConnected := false, connectionRetries := MAX_RETRIES },
         [Event.attempt idx])) ∧
    connectDB (fun _ => false) 0 initState =
      (false, { dbClient := none, isConnected := false, connectionRetries := MAX_RETRIES },
       [Event.attempt 0, Event.delay RETRY_DELAY, Event.attempt 1, Event.delay RETRY_DELAY,
        Event.attempt 2, Event.delay RETRY_DELAY, Event.attempt 3, Event.delay RETRY_DELAY,
        Event.attempt 4, Event.delay RETRY_DELAY, Event.attempt 5]) := by
  refine ⟨?_, ?_, ?_, ?_⟩
  · decide
  · exact fun oracle idx s hs ho hr => connectDB_fail_lt oracle idx s hs ho hr
  · intro oracle idx s hs ho hr
    rw [connectDB_fail_max oracle idx s hs ho (by omega), hr]
  · simp [connectDB_fail_lt, connectDB_fail_max, failStep, initState, MAX_RETRIES, RETRY_DELAY]

/-- Witness for connectDB_bounded_retry at concrete inputs: N = 5 for the
counter conjunct, and a state already at MAX_RETRIES for the exhaustion
conjunct. -/
theorem connectDB_bounded_retry_w :
    ((failStep^[5] initState).connectionRetries = 5 ∧
     (failStep^[5] initState).isConnected = false) ∧
    connectDB (fun _ => false) 2
        { dbClient := none, isConnected := false, connectionRetries := MAX_RETRIES } =
      (false, { dbClient := none, isConnected := false, connectionRetries := MAX_RETRIES },
       [Event.attempt 2]) :=
  ⟨connectDB_bounded_retry.1 5 (by decide),
   connectDB_bounded_retry.2.2.1 (fun _ => false) 2
     { dbClient := none, isConnected := false, connectionRetries := MAX_RETRIES }
     rfl rfl rfl⟩

/-- Claim C2: a query execution whose error is connection-fatal (ECONNRESET
or 57P01) leaves the supervisor Disconnected, schedules exactly one
reconnect without awaiting it, and still surfaces the error as a 500
response carrying its message and code. -/
theorem fatal_query_error_handling (env : String) (s : DBState) (req : QueryRequest)
    (code msg stk : String) (hc : s.isConnected = true)
    (ht : isFalsy req.text = false) (hf : fatalCode code = true) :
    (queryHandler env s req (QueryOutcome.err code msg stk)).2.1.isConnected = false ∧
    (queryHandler env s req (QueryOutcome.err code msg stk)).2.2.1 = 1 ∧
    (queryHandler env s req (QueryOutcome.err code msg stk)).1.status = 500 ∧
    (queryHandler env s req (QueryOutcome.err code msg stk)).1.error = true ∧
    (queryHandler env s req (QueryOutcome.err code msg stk)).1.message = some msg ∧
    (queryHandler env s req (QueryOutcome.err code msg stk)).1.code = some code := by
  simp [queryHandler, hc, ht, hf]

/-- Witness for fatal_query_error_handling: a connected state with handle 0,
a nonempty query text, and an ECONNRESET execution error. -/
theorem fatal_query_error_handling_w :
    (queryHandler "production" { dbClient := some 0, isConnected := true, connectionRetries := 0 }
        { text := some "SELECT 1", params := [] }
        (QueryOutcome.err "ECONNRESET" "socket hang up" "trace")).2.1.isConnected = false ∧
    (queryHandler "production" { dbClient := some 0, isConnected := true, connectionRetries := 0 }
        { text := some "SELECT 1", params := [] }
        (QueryOutcome.err "ECONNRESET" "socket hang up" "trace")).2.2.1 = 1 ∧
    (queryHandler "production" { dbClient := some 0, isConnected := true, connectionRetries := 0 }
        { text := some "SELECT 1", params := [] }
        (QueryOutcome.err "ECONNRESET" "socket hang up" "trace")).1.status = 500 ∧
    (queryHandler "production" { dbClient := some 0, isConnected := true, connectionRetries := 0 }
        { text := some "SELECT 1", params := [] }
        (QueryOutcome.err "ECONNRESET" "socket hang up" "trace")).1.error = true ∧
    (queryHandler "production" { dbClient := some 0, isConnected := true, connectionRetries := 0 }
        { text := some "SELECT 1", params := [] }
        (QueryOutcome.err "ECONNRESET" "socket hang up" "trace")).1.message = some "socket hang up" ∧
    (queryHandler "production" { dbClient := some 0, isConnected := true, connectionRetries := 0 }
        { text := some "SELECT 1", params := [] }
        (QueryOutcome.err "ECONNRESET" "socket hang up" "trace")).1.code = some "ECONNRESET" :=
  fatal_query_error_handling "production"
    { dbClient := some 0, isConnected := true, connectionRetries := 0 }
    { text := some "SELECT 1", params := [] } "ECONNRESET" "socket hang up" "trace"
    rfl (by decide) (by decide)

/-- Claim C3 counterexample: the query endpoint violates the state/handle
invariant.  From a connected state with handle 7, a connection-fatal query
error leaves isConnected false while dbClient is still handle 7, so
Disconnected does not imply a null handle. -/
theorem query_fatal_keeps_stale_handle_ce :
    ((queryHandler "production" { dbClient := some 7, isConnected := true, connectionRetries := 0 }
        { text := some "SELECT 1", params := [] }
        (QueryOutcome.err "ECONNRESET" "socket hang up" "trace")).2.1.isConnected = false) ∧
    ¬ ((queryHandler "production" { dbClient := some 7, isConnected := true, connectionRetries := 0 }
        { text := some "SELECT 1", params := [] }
        (QueryOutcome.err "ECONNRESET" "socket hang up" "trace")).2.1.dbClient = none) := by
  decide

/-- Claim C3 amended: every connect attempt from a not-connected state
establishes the invariant — success yields Connected with the non-null
handle of the most recent (last-traced) successful attempt, failure yields
Disconnected with a null handle; the health handler and shutdown leave the
supervisor state unchanged; the query endpoint leaves it unchanged on the
503, 200 and non-fatal 500 paths; but on a connection-fatal query error it
only flips isConnected to false and keeps the stale handle, so the
Disconnected-implies-null half of the invariant fails there until the
scheduled reconnect replaces the handle. -/
theorem state_handle_invariant_amended :
    (∀ (oracle : Nat → Bool) (idx : Nat) (s : DBState), s.isConnected = false →
      (((connectDB oracle idx s).1 = true →
        ∃ j, (connectDB oracle idx s).2.1 =
            { dbClient := some j, isConnected := true, connectionRetries := 0 } ∧
          oracle j = true ∧
          ((connectDB oracle idx s).2.2).getLast? = some (Event.attempt j)) ∧
      ((connectDB oracle idx s).1 = false →
        (connectDB oracle idx s).2.1.dbClient = none ∧
        (connectDB oracle idx s).2.1.isConnected = false))) ∧
    (∀ up ts env s probe re, (healthHandler up ts env s probe re).2.1 = s) ∧
    (∀ s c, (shutdown s c).2.1 = s) ∧
    (∀ env s req exec, s.isConnected = false → (queryHandler env s req exec).2.1 = s) ∧
    (∀ env s req rows n fs, (queryHandler env s req (QueryOutcome.ok rows n fs)).2.1 = s) ∧
    (∀ env s req code msg stk, fatalCode code = false →
      (queryHandler env s req (QueryOutcome.err code msg stk)).2.1 = s) ∧
    (∀ env s req code msg stk, s.isConnected = true → isFalsy req.text = false →
      fatalCode code = true →
      (queryHandler env s req (QueryOutcome.err code msg stk)).2.1 =
        { s with isConnected := false }) := by
  refine ⟨?_, ?_, ?_, ?_, ?_, ?_, ?_⟩
  · exact fun oracle idx s hs => connectDB_outcome (MAX_RETRIES - s.connectionRetries)
      oracle idx s rfl hs
  · intro up ts env s probe re
    cases re with
    | some e => rfl
    | none =>
      by_cases hc : s.isConnected <;> cases probe <;> simp [healthHandler, hc]
  · intro s c
    cases h : s.dbClient <;> cases c <;> simp [shutdown, h]
  · intro env s req exec h
    simp [queryHandler, h]
  · intro env s req rows n fs
    by_cases h1 : s.isConnected = false
    · simp [queryHandler, h1]
    · by_cases h2 : isFalsy req.text <;> simp [queryHandler, h1, h2]
  · intro env s req code msg stk hf
    by_cases h1 : s.isConnected = false
    · simp [queryHandler, h1]
    · by_cases h2 : isFalsy req.text <;> simp [queryHandler, h1, h2, hf]
  · intro env s req code msg stk hc ht hf
    simp [queryHandler, hc, ht, hf]

/-- Witness for state_handle_invariant_amended: the connect conjunct at a
first-try success oracle from the initial state, and the fatal-query
conjunct at a connected state with handle 7. -/
theorem state_handle_invariant_amended_w :
    ((connectDB (fun _ => true) 0 initState).1 = true →
      ∃ j, (connectDB (fun _ => true) 0 initState).2.1 =
          { dbClient := some j, isConnected := true, connectionRetries := 0 } ∧
        (fun _ => true) j = true ∧
        ((connectDB (fun _ => true) 0 initState).2.2).getLast? = some (Event.attempt j)) ∧
    (queryHandler "production" { dbClient := some 7, isConnected := true, connectionRetries := 0 }
        { text := some "SELECT 1", params := [] }
        (QueryOutcome.err "57P01" "terminating connection" "trace")).2.1 =
      { dbClient := some 7, isConnected := false, connectionRetries := 0 } :=
  ⟨(state_handle_invariant_amended.1 (fun _ => true) 0 initState rfl).1,
   state_handle_invariant_amended.2.2.2.2.2.2 "production"
     { dbClient := some 7, isConnected := true, connectionRetries := 0 }
     { text := some "SELECT 1", params := [] } "57P01" "terminating connection" "trace"
     rfl (by decide) (by decide)⟩

/-- Claim C4: the retry counter is reset to 0 by every successful connect,
whatever its prior value; a call made after the counter has reached
MAX_RETRIES fails without resetting it, re-entering the retry logic from
the current counter value and making exactly one attempt; and no other
operation — query dispatch, health probe, shutdown — ever changes
connectionRetries. -/
theorem retryCounter_reset_policy :
    (∀ (oracle : Nat → Bool) (idx : Nat) (s : DBState),
      s.isConnected = false → (connectDB oracle idx s).1 = true →
      (connectDB oracle idx s).2.1.connectionRetries = 0) ∧
    (∀ (oracle : Nat → Bool) (idx : Nat) (s : DBState),
      s.isConnected = false → oracle idx = false → s.connectionRetries = MAX_RETRIES →
      (connectDB oracle idx s).1 = false ∧
      (connectDB oracle idx s).2.1.connectionRetries = MAX_RETRIES ∧
      (connectDB oracle idx s).2.2 = [Event.attempt idx]) ∧
    (∀ env s req exec,
      (queryHandler env s req exec).2.1.connectionRetries = s.connectionRetries) ∧
    (∀ up ts env s probe re,
      (healthHandler up ts env s probe re).2.1.connectionRetries = s.connectionRetries) ∧
    (∀ s c, (shutdown s c).2.1.connectionRetries = s.connectionRetries) := by
  refine ⟨?_, ?_, ?_, ?_, ?_⟩
  · intro oracle idx s hs h
    obtain ⟨j, hj, -, -⟩ :=
      (connectDB_outcome (MAX_RETRIES - s.connectionRetries) oracle idx s rfl hs).1 h
    rw [hj]
  · intro oracle idx s hs ho hr
    rw [connectDB_fail_max oracle idx s hs ho (by omega), hr]
    exact ⟨rfl, rfl, rfl⟩
  · intro env s req exec
    by_cases h1 : s.isConnected = false
    · simp [queryHandler, h1]
    · by_cases h2 : isFalsy req.text
      · simp [queryHandler, h1, h2]
      · cases exec with
        | ok rows n fs => simp [queryHandler, h1, h2]
        | err code msg stk =>
          by_cases hf : fatalCode code <;> simp [queryHandler, h1, h2, hf]
  · intro up ts env s probe re
    cases re with
    | some e => rfl
    | none => by_cases hc : s.isConnected <;> cases probe <;> simp [healthHandler, hc]
  · intro s c
    cases h : s.dbClient <;> cases c <;> simp [shutdown, h]

/-- Witness for retryCounter_reset_policy: a successful connect from a
state with counter 4 resets it to 0, and an exhausted state keeps counter
MAX_RETRIES through a failing external call. -/
theorem retryCounter_reset_policy_w :
    (connectDB (fun _ => true) 9
        { dbClient := none, isConnected := false, connectionRetries := 4 }).2.1.connectionRetries = 0 ∧
    ((connectDB (fun _ => false) 0
        { dbClient := none, isConnected := false, connectionRetries := MAX_RETRIES }).1 = false ∧
     (connectDB (fun _ => false) 0
        { dbClient := none, isConnected := false, connectionRetries := MAX_RETRIES }).2.1.connectionRetries = MAX_RETRIES ∧
     (connectDB (fun _ => false) 0
        { dbClient := none, isConnected := false, connectionRetries := MAX_RETRIES }).2.2 = [Event.attempt 0]) :=
  ⟨retryCounter_reset_policy.1 (fun _ => true) 9
      { dbClient := none, isConnected := false, connectionRetries := 4 } rfl
      (by rw [connectDB_success _ _ _ rfl rfl]),
   retryCounter_reset_policy.2.1 (fun _ => false) 0
      { dbClient := none, isConnected := false, connectionRetries := MAX_RETRIES } rfl rfl rfl⟩

/-- Claim C5: a query request arriving while Disconnected fails immediately
with a 503 response whose body is error true with a message; the state is
unchanged, no database query call is made and no connect attempt is
scheduled. -/
theorem query_disconnected_immediate (env : String) (s : DBState) (req : QueryRequest)
    (exec : QueryOutcome) (h : s.isConnected = false) :
    queryHandler env s req exec =
      ({ status := 503, error := true, message := some "Database not connected",
         code := none, detail := none, rows := none, rowCount := none, fields := none },
       s, 0, 0) := by
  simp [queryHandler, h]

/-- Witness for query_disconnected_immediate at the initial state. -/
theorem query_disconnected_immediate_w :
    queryHandler "production" initState { text := some "SELECT 1", params := [] }
        (QueryOutcome.ok [] 0 []) =
      ({ status := 503, error := true, message := some "Database not connected",
         code := none, detail := none, rows := none, rowCount := none, fields := none },
       initState, 0, 0) :=
  query_disconnected_immediate "production" initState
    { text := some "SELECT 1", params := [] } (QueryOutcome.ok [] 0 []) rfl

/-- Claim C6 counterexample: between case (a) connected-and-probe-succeeds
and case (c) connected-but-probe-fails, with every other input identical,
the response bodies differ not only in the status and database fields: the
databaseError field is populated in case (c) and absent in case (a), so the
bodies do not differ only in status/database. -/
theorem health_probe_error_extra_field_ce :
    ((healthHandler 1 "t" none { dbClient := some 0, isConnected := true, connectionRetries := 0 }
        (ProbeOutcome.fail "probe failed") none).1.2 =
      HealthBody.report
        { status := "healthy", uptime := 1, timestamp := "t",
          database := "error", databaseError := some "probe failed", nodeEnv := none }) ∧
    ((healthHandler 1 "t" none { dbClient := some 0, isConnected := true, connectionRetries := 0 }
        ProbeOutcome.ok none).1.2 =
      HealthBody.report
        { status := "healthy", uptime := 1, timestamp := "t",
          database := "connected", databaseError := none, nodeEnv := none }) := by
  decide

/-- Claim C6 amended: the health endpoint answers HTTP 200 for every input —
connected with a healthy probe, disconnected, connected with a failing
probe, and even when the reporter itself throws, in which case the body is
the degraded fallback; between the three non-throwing cases the bodies
share status, uptime, timestamp and environment, differing only in the
database and databaseError fields. -/
theorem health_http_status_policy (up : Nat) (ts : String) (env : Option String)
    (s : DBState) (probe : ProbeOutcome) (re : Option String) (e : String) :
    (healthHandler up ts env s probe re).1.1 = 200 ∧
    (∃ doc, (healthHandler up ts env s probe none).1.2 = HealthBody.report doc ∧
      doc.status = "healthy" ∧ doc.uptime = up ∧ doc.timestamp = ts ∧ doc.nodeEnv = env) ∧
    (healthHandler up ts env s probe (some e)).1.2 = HealthBody.degraded e ts := by
  refine ⟨?_, ?_, rfl⟩
  · cases re with
    | some e2 => rfl
    | none => by_cases hc : s.isConnected <;> cases probe <;> simp [healthHandler, hc]
  · by_cases hc : s.isConnected <;> cases probe <;> simp [healthHandler, hc]

/-- Claim C7: when the supervisor is Connected the health handler issues
exactly one SELECT 1 liveness probe and sends the response from the
unchanged supervisor state; a failing probe sets the database field to
error, records the message in databaseError and schedules exactly one
fire-and-forget reconnect, while a healthy probe schedules none; when the
supervisor is Disconnected no probe is issued, no reconnect is scheduled
and the database field is disconnected. -/
theorem health_probe_postcondition (up : Nat) (ts : String) (env : Option String)
    (s : DBState) (m : String) (probe : ProbeOutcome) :
    (s.isConnected = true →
      (healthHandler up ts env s probe none).2.2.1 = ["SELECT 1"] ∧
      (healthHandler up ts env s probe none).2.1 = s ∧
      ((healthHandler up ts env s (ProbeOutcome.fail m) none).2.2.2 = 1 ∧
       ∃ doc, (healthHandler up ts env s (ProbeOutcome.fail m) none).1.2 =
           HealthBody.report doc ∧
         doc.database = "error" ∧ doc.databaseError = some m) ∧
      (healthHandler up ts env s ProbeOutcome.ok none).2.2.2 = 0) ∧
    (s.isConnected = false →
      (healthHandler up ts env s probe none).2.2.1 = [] ∧
      (healthHandler up ts env s probe none).2.2.2 = 0 ∧
      ∃ doc, (healthHandler up ts env s probe none).1.2 = HealthBody.report doc ∧
        doc.database = "disconnected") := by
  constructor
  · intro hc
    cases probe <;> simp [healthHandler, hc]
  · intro hc
    cases probe <;> simp [healthHandler, hc]

/-- Witness for health_probe_postcondition: the connected half at a state
with handle 0 and a failing probe, and the disconnected half at the initial
state. -/
theorem health_probe_postcondition_w :
    ((healthHandler 3 "t" none { dbClient := some 0, isConnected := true, connectionRetries := 0 }
        (ProbeOutcome.fail "down") none).2.2.1 = ["SELECT 1"] ∧
     (healthHandler 3 "t" none { dbClient := some 0, isConnected := true, connectionRetries := 0 }
        (ProbeOutcome.fail "down") none).2.1 =
       { dbClient := some 0, isConnected := true, connectionRetries := 0 } ∧
     ((healthHandler 3 "t" none { dbClient := some 0, isConnected := true, connectionRetries := 0 }
        (ProbeOutcome.fail "down") none).2.2.2 = 1 ∧
      ∃ doc, (healthHandler 3 "t" none
            { dbClient := some 0, isConnected := true, connectionRetries := 0 }
            (ProbeOutcome.fail "down") none).1.2 = HealthBody.report doc ∧
        doc.database = "error" ∧ doc.databaseError = some "down") ∧
     (healthHandler 3 "t" none { dbClient := some 0, isConnected := true, connectionRetries := 0 }
        ProbeOutcome.ok none).2.2.2 = 0) ∧
    ((healthHandler 3 "t" none initState ProbeOutcome.ok none).2.2.1 = [] ∧
     (healthHandler 3 "t" none initState ProbeOutcome.ok none).2.2.2 = 0 ∧
     ∃ doc, (healthHandler 3 "t" none initState ProbeOutcome.ok none).1.2 =
         HealthBody.report doc ∧ doc.database = "disconnected") :=
  ⟨(health_probe_postcondition 3 "t" none
      { dbClient := some 0, isConnected := true, connectionRetries := 0 }
      "down" (ProbeOutcome.fail "down")).1 rfl,
   (health_probe_postcondition 3 "t" none initState "down" ProbeOutcome.ok).2 rfl⟩

/-- Claim C8 counterexample: a POST /api/query with empty text arriving
while the supervisor is Disconnected is answered 503, not 400 — the
not-connected guard runs before the text check. -/
theorem query_empty_text_disconnected_ce :
    (queryHandler "production" initState { text := some "", params := [] }
        (QueryOutcome.ok [] 0 [])).1.status = 503 ∧
    ¬ ((queryHandler "production" initState { text := some "", params := [] }
        (QueryOutcome.ok [] 0 [])).1.status = 400) := by
  decide

/-- Claim C8 amended: a POST /api/query with empty text arriving while the
supervisor is Connected is answered 400 with body error true and message
Query text is required, the connection-state triple is unchanged, and no
database call or reconnect is made. -/
theorem query_empty_text_bad_request (env : String) (s : DBState) (ps : List String)
    (exec : QueryOutcome) (hc : s.isConnected = true) :
    queryHandler env s { text := some "", params := ps } exec =
      ({ status := 400, error := true, message := some "Query text is required",
         code := none, detail := none, rows := none, rowCount := none, fields := none },
       s, 0, 0) := by
  simp [queryHandler, hc, isFalsy]

/-- Witness for query_empty_text_bad_request at a connected state with
handle 2 and retry counter 3, showing the triple survives unchanged. -/
theorem query_empty_text_bad_request_w :
    queryHandler "production" { dbClient := some 2, isConnected := true, connectionRetries := 3 }
        { text := some "", params := [] } (QueryOutcome.ok [] 0 []) =
      ({ status := 400, error := true, message := some "Query text is required",
         code := none, detail := none, rows := none, rowCount := none, fields := none },
       { dbClient := some 2, isConnected := true, connectionRetries := 3 }, 0, 0) :=
  query_empty_text_bad_request "production"
    { dbClient := some 2, isConnected := true, connectionRetries := 3 } []
    (QueryOutcome.ok [] 0 []) rfl

/-- Claim C9 counterexample: the shutdown handler does not set the
connection state to Disconnected — from a connected state it exits with
isConnected still true (the module variables are never written; the
process simply exits). -/
theorem shutdown_keeps_state_ce :
    ¬ ((shutdown { dbClient := some 3, isConnected := true, connectionRetries := 2 }
        CloseOutcome.ok).2.1.isConnected = false) := by
  decide

/-- Claim C9 amended: on a termination signal the shutdown handler closes
the active handle exactly when one is present, leaves the whole supervisor
state — ConnectionState, RetryCounter and the handle variable — untouched,
and terminates the process with exit status 0 whether the close succeeded
or raised an error. -/
theorem shutdown_exit_policy (s : DBState) (c : CloseOutcome) :
    (shutdown s c).1 = 0 ∧ (shutdown s c).2.1 = s ∧
    (shutdown s c).2.2 = (if s.dbClient.isSome then 1 else 0) := by
  cases h : s.dbClient <;> cases c <;> simp [shutdown, h]

/-- Claim C10: whenever the reporter does not throw, the top-level status
field of the health document equals healthy whatever the database field
says — connected, disconnected or error; the degraded status appears only
in the fallback body produced when the reporter itself throws. -/
theorem health_status_field_policy (up : Nat) (ts : String) (env : Option String)
    (s : DBState) (probe : ProbeOutcome) (e : String) :
    (∃ doc, (healthHandler up ts env s probe none).1.2 = HealthBody.report doc ∧
      doc.status = "healthy") ∧
    (healthHandler up ts env s probe (some e)).1.2 = HealthBody.degraded e ts := by
  constructor
  · by_cases hc : s.isConnected <;> cases probe <;> simp [healthHandler, hc]
  · rfl
